import Mathlib

/-!
Verification development for `dmabuf-sharing.c` (DRM/V4L2 zero-copy frame
sharing demo).  The C program is embedded shallowly: each external ioctl /
libdrm call is an oracle supplied by an environment record, and each phase of
`main` is a Lean function producing its result together with the ordered
trace of external calls it makes.  `BYE_ON` is modelled as immediate abort:
the function stops and no further calls appear in the trace.
-/

namespace DmabufSharing

/-- Mirror of `struct v4l2_rect` (fields are signed 32-bit in C; modelled as
`Int`, since no arithmetic in the program can overflow them). -/
structure Rect where
  left : Int
  top : Int
  width : Int
  height : Int
  deriving DecidableEq, Repr

/-- The fields of `struct setup` (dmabuf-sharing.c:72-88) that the modelled
code paths read.  `crtcIdx` is the index of the chosen CRTC in the resource
list (set by `find_crtc`), `in_fourcc`/`out_fourcc` the producer/presentation
format tags (`0` when the corresponding CLI option was absent). -/
structure Setup where
  crtcIdx : Nat
  w : Nat
  h : Nat
  in_fourcc : Nat
  out_fourcc : Nat
  buffer_count : Nat
  use_crop : Bool
  crop : Rect
  use_compose : Bool
  compose : Rect
  deriving DecidableEq, Repr

/-! ## Plane resolution (`find_plane`, dmabuf-sharing.c:350-392) -/

/-- One entry of the DRM plane list: a `drmModeGetPlane` result, restricted
to the fields `find_plane` reads. -/
structure Plane where
  plane_id : Nat
  possible_crtcs : Nat
  formats : List Nat
  deriving DecidableEq, Repr

/-- The inner format scan of `find_plane` (dmabuf-sharing.c:372-375): walk
`plane->formats` and stop at the first entry equal to the target; the C
reports "not found" through `j == plane->count_formats`. -/
def formatListHas (out_fourcc : Nat) : List Nat → Bool
  | [] => false
  | f :: rest => if f = out_fourcc then true else formatListHas out_fourcc rest

/-- Embedding of `find_plane` (dmabuf-sharing.c:350-392).  The C scans the
plane array once: a plane is skipped when `possible_crtcs & (1 << crtcIdx)`
is zero (line 367); otherwise the inner loop looks for
`formats[j] == s->out_fourcc` and the plane is skipped when that scan runs
off the end (lines 372-380); the first survivor's `plane_id` is recorded and
the outer loop breaks (lines 382-384).  `ret = -1` exactly when the outer
scan exhausted the list (lines 387-388); here `none` stands for that
failure, `some planeId` for success. -/
def find_plane (crtcIdx : Nat) (out_fourcc : Nat) : List Plane → Option Nat
  | [] => none
  | p :: rest =>
    if !(p.possible_crtcs.testBit crtcIdx) then
      find_plane crtcIdx out_fourcc rest
    else if !(formatListHas out_fourcc p.formats) then
      find_plane crtcIdx out_fourcc rest
    else
      some p.plane_id

/-- Whether a plane survives both of `find_plane`'s filters. -/
def planeCompatible (crtcIdx : Nat) (out_fourcc : Nat) (p : Plane) : Bool :=
  p.possible_crtcs.testBit crtcIdx && formatListHas out_fourcc p.formats

/-- Spec-side resolver, written from the spec's words (§4.4): filter the
ordered candidate list to the surfaces eligible for the output's hardware
pipeline, then to those whose supported-layout set contains the session
layout, and take the first survivor. -/
def resolveSurfaceSpec (crtcIdx : Nat) (out_fourcc : Nat) (ps : List Plane) : Option Nat :=
  (((ps.filter (fun p => p.possible_crtcs.testBit crtcIdx)).filter
      (fun p => decide (out_fourcc ∈ p.formats))).head?).map Plane.plane_id

theorem formatListHas_iff_mem (out_fourcc : Nat) (fs : List Nat) :
    formatListHas out_fourcc fs = true ↔ out_fourcc ∈ fs := by
  induction fs with
  | nil => simp [formatListHas]
  | cons f rest ih =>
    by_cases h : f = out_fourcc
    · simp [formatListHas, h]
    · have h' : ¬ (out_fourcc = f) := fun hh => h hh.symm
      simp [formatListHas, h, h', ih]

theorem find_plane_eq_find? (crtcIdx out_fourcc : Nat) (ps : List Plane) :
    find_plane crtcIdx out_fourcc ps
      = (ps.find? (planeCompatible crtcIdx out_fourcc)).map Plane.plane_id := by
  induction ps with
  | nil => rfl
  | cons p rest ih =>
    cases h1 : p.possible_crtcs.testBit crtcIdx with
    | false => simp [find_plane, List.find?_cons, planeCompatible, h1, ih]
    | true =>
      cases h2 : formatListHas out_fourcc p.formats with
      | false => simp [find_plane, List.find?_cons, planeCompatible, h1, h2, ih]
      | true => simp [find_plane, List.find?_cons, planeCompatible, h1, h2]

theorem resolveSurfaceSpec_eq_find? (crtcIdx out_fourcc : Nat) (ps : List Plane) :
    resolveSurfaceSpec crtcIdx out_fourcc ps
      = (ps.find? (planeCompatible crtcIdx out_fourcc)).map Plane.plane_id := by
  induction ps with
  | nil => rfl
  | cons p rest ih =>
    unfold resolveSurfaceSpec
    cases h1 : p.possible_crtcs.testBit crtcIdx with
    | false =>
      rw [List.filter_cons_of_neg (by simp [h1]),
          List.find?_cons_of_neg _ (by simp [planeCompatible, h1])]
      exact ih
    | true =>
      cases h2 : formatListHas out_fourcc p.formats with
      | false =>
        have h2m : ¬ (out_fourcc ∈ p.formats) := by
          rw [← formatListHas_iff_mem, h2]; simp
        rw [List.filter_cons_of_pos (by simp [h1]),
            List.filter_cons_of_neg (by simp [h2m]),
            List.find?_cons_of_neg _ (by simp [planeCompatible, h2])]
        exact ih
      | true =>
        have h2m : out_fourcc ∈ p.formats := (formatListHas_iff_mem _ _).mp h2
        rw [List.filter_cons_of_pos (by simp [h1]),
            List.filter_cons_of_pos (by simp [h2m]),
            List.find?_cons_of_pos _ (by simp [planeCompatible, h1, h2])]
        rfl

theorem find_plane_none_iff (crtcIdx out_fourcc : Nat) (ps : List Plane) :
    find_plane crtcIdx out_fourcc ps = none ↔
      ∀ p ∈ ps, planeCompatible crtcIdx out_fourcc p = false := by
  rw [find_plane_eq_find?]
  simp [List.find?_eq_none]

/-- C8: plane resolution scans the consumer-reported list once, skips planes
whose possible-CRTC bitmask lacks the chosen CRTC's index, skips planes whose
supported-format set lacks the session's presentation layout, selects the
first surviving plane (first compatible match wins, no ranking), and fails
exactly when the scan exhausts the list; being a pure function of the
ordered list and layout, repeated resolution picks the same plane. -/
theorem C8_find_plane_first_compatible (crtcIdx out_fourcc : Nat) (ps : List Plane) :
    find_plane crtcIdx out_fourcc ps = resolveSurfaceSpec crtcIdx out_fourcc ps ∧
    (find_plane crtcIdx out_fourcc ps = none ↔
      ∀ p ∈ ps, planeCompatible crtcIdx out_fourcc p = false) :=
  ⟨by rw [find_plane_eq_find?, resolveSurfaceSpec_eq_find?],
   find_plane_none_iff crtcIdx out_fourcc ps⟩

/-! ## Buffer creation (`buffer_create`, dmabuf-sharing.c:195-253) and the
pool loop of `main` (dmabuf-sharing.c:466-469) -/

/-- Mirror of `struct buffer` (dmabuf-sharing.c:90-94). -/
structure Buffer where
  bo_handle : Nat
  fb_handle : Nat
  dbuf_fd : Nat
  deriving DecidableEq, Repr

/-- One external DRM call made by `buffer_create` or by teardown code. -/
inductive DrmCall where
  | createDumb (w h bpp size : Nat)
  | primeHandleToFd (handle : Nat)
  | addFB2 (w h fourcc handle pitch : Nat)
  | closeFd (fd : Nat)
  | destroyDumb (handle : Nat)
  deriving DecidableEq, Repr

/-- Oracle outcomes for the three fallible calls of one `buffer_create` run:
the GEM handle returned by `DRM_IOCTL_MODE_CREATE_DUMB`, the dma-buf fd
returned by `DRM_IOCTL_PRIME_HANDLE_TO_FD`, and the fb id produced by
`drmModeAddFB2`; `none` means the call failed. -/
structure BufEnv where
  createDumb : Option Nat
  primeFd : Option Nat
  addFB2 : Option Nat
  deriving Repr

/-- The format tag `buffer_create` registers the framebuffer with
(dmabuf-sharing.c:226-228): `s->out_fourcc`, falling back to `s->in_fourcc`
when the former is 0 (no `-F` option given). -/
def fbFourcc (s : Setup) : Nat :=
  if s.out_fourcc = 0 then s.in_fourcc else s.out_fourcc

/-- Embedding of `buffer_create` (dmabuf-sharing.c:195-253): CREATE_DUMB
(fail → return -1, nothing to roll back), PRIME_HANDLE_TO_FD (fail →
`goto fail_gem`: DESTROY_DUMB), `drmModeAddFB2` with `fbFourcc` (fail →
`goto fail_prime`: close the dma-buf fd, then DESTROY_DUMB).  Returns the
filled `struct buffer` on success, `none` on failure, together with the
ordered trace of DRM calls made. -/
def buffer_create (env : BufEnv) (s : Setup) (size pitch : Nat) :
    Option Buffer × List DrmCall :=
  match env.createDumb with
  | none => (none, [DrmCall.createDumb s.w s.h 32 size])
  | some hdl =>
    match env.primeFd with
    | none =>
        (none, [DrmCall.createDumb s.w s.h 32 size,
                DrmCall.primeHandleToFd hdl,
                DrmCall.destroyDumb hdl])
    | some fd =>
      match env.addFB2 with
      | none =>
          (none, [DrmCall.createDumb s.w s.h 32 size,
                  DrmCall.primeHandleToFd hdl,
                  DrmCall.addFB2 s.w s.h (fbFourcc s) hdl pitch,
                  DrmCall.closeFd fd,
                  DrmCall.destroyDumb hdl])
      | some fb =>
          (some ⟨hdl, fb, fd⟩,
           [DrmCall.createDumb s.w s.h 32 size,
            DrmCall.primeHandleToFd hdl,
            DrmCall.addFB2 s.w s.h (fbFourcc s) hdl pitch])

/-- A DRM call that releases a resource (fd close or dumb-buffer destroy). -/
def isReleaseCall : DrmCall → Bool
  | DrmCall.closeFd _ => true
  | DrmCall.destroyDumb _ => true
  | _ => false

/-- The buffer-creation loop of `main` (dmabuf-sharing.c:466-469), starting
at index `i` with `n` buffers left to create.  `BYE_ON(ret, ...)` aborts the
process on the first failure, so the recursion stops there: the result is
`none` and the already-created buffers are not revisited. -/
def createPoolFrom (envs : Nat → BufEnv) (s : Setup) (size pitch : Nat) :
    Nat → Nat → Option (List Buffer) × List DrmCall
  | _, 0 => (some [], [])
  | i, n+1 =>
    let r := buffer_create (envs i) s size pitch
    match r.1 with
    | none => (none, r.2)
    | some b =>
      let rest := createPoolFrom envs s size pitch (i+1) n
      match rest.1 with
      | none => (none, r.2 ++ rest.2)
      | some bs => (some (b :: bs), r.2 ++ rest.2)

/-- The whole pool loop: indices `0 .. s.buffer_count - 1`. -/
def createPool (envs : Nat → BufEnv) (s : Setup) (size pitch : Nat) :
    Option (List Buffer) × List DrmCall :=
  createPoolFrom envs s size pitch 0 s.buffer_count

theorem buffer_create_success_no_release (env : BufEnv) (s : Setup) (size pitch : Nat) :
    ((buffer_create env s size pitch).1).isSome →
      (buffer_create env s size pitch).2.filter isReleaseCall = [] := by
  obtain ⟨cd, pf, fb⟩ := env
  cases cd <;> cases pf <;> cases fb <;>
    simp [buffer_create, isReleaseCall]

theorem createPoolFrom_fail (envs : Nat → BufEnv) (s : Setup) (size pitch : Nat) :
    ∀ (n k i : Nat), k < n →
      (∀ j, j < k → ((buffer_create (envs (i + j)) s size pitch).1).isSome) →
      ((buffer_create (envs (i + k)) s size pitch).1 = none) →
      (createPoolFrom envs s size pitch i n).1 = none ∧
        (createPoolFrom envs s size pitch i n).2.filter isReleaseCall
          = (buffer_create (envs (i + k)) s size pitch).2.filter isReleaseCall := by
  intro n
  induction n with
  | zero => intro k i hk; omega
  | succ m ih =>
    intro k i hk hsucc hfail
    cases k with
    | zero =>
      simp only [Nat.add_zero] at hfail
      simp [createPoolFrom, hfail]
    | succ k' =>
      have h0 : ((buffer_create (envs (i + 0)) s size pitch).1).isSome :=
        hsucc 0 (Nat.succ_pos _)
      simp only [Nat.add_zero] at h0
      obtain ⟨b, hb⟩ := Option.isSome_iff_exists.mp h0
      have hrec := ih k' (i + 1) (Nat.lt_of_succ_lt_succ hk)
        (fun j hj => by
          have := hsucc (j + 1) (Nat.succ_lt_succ hj)
          simpa [Nat.add_assoc, Nat.add_comm 1 j] using this)
        (by
          have : i + 1 + k' = i + (k' + 1) := by omega
          rw [this]; exact hfail)
      simp only [createPoolFrom, hb]
      rcases hrest : (createPoolFrom envs s size pitch (i + 1) m).1 with _ | bs
      · refine ⟨rfl, ?_⟩
        rw [List.filter_append,
            buffer_create_success_no_release (envs i) s size pitch (by simp [hb]),
            List.nil_append]
        have : i + 1 + k' = i + (k' + 1) := by omega
        rw [← this]
        exact hrec.2
      · exact absurd hrest (by simp [hrec.1])

/-- Concrete failing pool construction: buffer 0 is fully created (GEM
handle 1, dma-buf fd 2, fb id 3) and buffer 1's allocation fails. -/
def c3Envs : Nat → BufEnv := fun i =>
  if i = 0 then ⟨some 1, some 2, some 3⟩ else ⟨none, none, none⟩

/-- A fixed session setup used by the concrete counterexamples. -/
def c3Setup : Setup :=
  { crtcIdx := 0, w := 640, h := 480, in_fourcc := 10, out_fourcc := 20,
    buffer_count := 2, use_crop := false, crop := ⟨0, 0, 0, 0⟩,
    use_compose := false, compose := ⟨0, 0, 0, 0⟩ }

/-- C3 counterexample: with buffer 0 fully created and buffer 1's allocation
failing, the pool loop stops (`BYE_ON` abort) but emits no release call at
all — buffer 0's framebuffer registration, dma-buf fd and allocation are not
released, refuting "buffers 0..i-1 are fully released ... in reverse
creation order". -/
theorem C3_counterexample_no_rollback_of_earlier_buffers :
    (createPool c3Envs c3Setup 1000 2560).1 = none ∧
    (createPool c3Envs c3Setup 1000 2560).2.filter isReleaseCall = [] ∧
    (createPool c3Envs c3Setup 1000 2560).2.count (DrmCall.destroyDumb 1) = 0 ∧
    (createPool c3Envs c3Setup 1000 2560).2.count (DrmCall.closeFd 2) = 0 := by
  decide

/-- C3 (amended): when the allocation, handle export, or framebuffer
registration of buffer `k` fails, pool construction aborts at that buffer
(`BYE_ON`) with no pool returned, and the only release calls in the whole
pool trace are the failing buffer's own rollback — which releases that
buffer's prior acquisitions in reverse creation order (exported fd closed,
then dumb allocation destroyed); buffers `0..k-1` are left unreleased, to be
reclaimed only by process termination. -/
theorem C3_pool_aborts_with_only_local_rollback
    (env : BufEnv) (s : Setup) (size pitch : Nat)
    (envs : Nat → BufEnv) (n k : Nat)
    (hk : k < n)
    (hsucc : ∀ j, j < k → ((buffer_create (envs j) s size pitch).1).isSome)
    (hfail : (buffer_create (envs k) s size pitch).1 = none) :
    ((createPoolFrom envs s size pitch 0 n).1 = none ∧
      (createPoolFrom envs s size pitch 0 n).2.filter isReleaseCall
        = (buffer_create (envs k) s size pitch).2.filter isReleaseCall) ∧
    (∀ hdl, env.createDumb = some hdl → env.primeFd = none →
      (buffer_create env s size pitch).2
        = [DrmCall.createDumb s.w s.h 32 size, DrmCall.primeHandleToFd hdl,
           DrmCall.destroyDumb hdl]) ∧
    (∀ hdl fd, env.createDumb = some hdl → env.primeFd = some fd →
      env.addFB2 = none →
      (buffer_create env s size pitch).2
        = [DrmCall.createDumb s.w s.h 32 size, DrmCall.primeHandleToFd hdl,
           DrmCall.addFB2 s.w s.h (fbFourcc s) hdl pitch,
           DrmCall.closeFd fd, DrmCall.destroyDumb hdl]) := by
  refine ⟨?_, ?_, ?_⟩
  · have h := createPoolFrom_fail envs s size pitch n k 0 hk
      (fun j hj => by simpa using hsucc j hj)
      (by simpa using hfail)
    simpa using h
  · intro hdl h1 h2
    simp [buffer_create, h1, h2]
  · intro hdl fd h1 h2 h3
    simp [buffer_create, h1, h2, h3]

theorem C3_pool_aborts_with_only_local_rollback_witness :
    ((1 : Nat) < 2 ∧
      (∀ j, j < 1 → ((buffer_create (c3Envs j) c3Setup 1000 2560).1).isSome) ∧
      (buffer_create (c3Envs 1) c3Setup 1000 2560).1 = none) ∧
    (((createPoolFrom c3Envs c3Setup 1000 2560 0 2).1 = none ∧
      (createPoolFrom c3Envs c3Setup 1000 2560 0 2).2.filter isReleaseCall
        = (buffer_create (c3Envs 1) c3Setup 1000 2560).2.filter isReleaseCall) ∧
    (∀ hdl, (BufEnv.mk (some 1) (some 2) none).createDumb = some hdl →
      (BufEnv.mk (some 1) (some 2) none).primeFd = none →
      (buffer_create ⟨some 1, some 2, none⟩ c3Setup 1000 2560).2
        = [DrmCall.createDumb c3Setup.w c3Setup.h 32 1000,
           DrmCall.primeHandleToFd hdl, DrmCall.destroyDumb hdl]) ∧
    (∀ hdl fd, (BufEnv.mk (some 1) (some 2) none).createDumb = some hdl →
      (BufEnv.mk (some 1) (some 2) none).primeFd = some fd →
      (BufEnv.mk (some 1) (some 2) none).addFB2 = none →
      (buffer_create ⟨some 1, some 2, none⟩ c3Setup 1000 2560).2
        = [DrmCall.createDumb c3Setup.w c3Setup.h 32 1000,
           DrmCall.primeHandleToFd hdl,
           DrmCall.addFB2 c3Setup.w c3Setup.h (fbFourcc c3Setup) hdl 2560,
           DrmCall.closeFd fd, DrmCall.destroyDumb hdl])) :=
  ⟨⟨by decide,
    fun j hj => by
      have hj0 : j = 0 := by omega
      subst hj0; decide,
    by decide⟩,
   C3_pool_aborts_with_only_local_rollback ⟨some 1, some 2, none⟩ c3Setup 1000 2560
     c3Envs 2 1 (by decide)
     (fun j hj => by
       have hj0 : j = 0 := by omega
       subst hj0; decide)
     (by decide)⟩

/-! ## The handoff loop (dmabuf-sharing.c:506-537)

`stream.current_buffer` starts at `-1` (line 503).  Each iteration:
`VIDIOC_DQBUF` fills `buf.index` with the completed buffer's index
(line 513); `drmModeSetPlane` presents `buffer[buf.index]` (lines 516-521);
when `stream.current_buffer != -1` the code re-uses the same `buf` variable,
overwriting `buf.index` with `stream.current_buffer` (line 528), and
re-queues that buffer with `VIDIOC_QBUF` (line 531); finally line 536 stores
`buf.index` — which at that point is the OLD `current_buffer` whenever the
re-queue branch ran — back into `stream.current_buffer`.

Beside the program variable `current_buffer`, the model carries ghost
observations of the environment: the multiset of indices currently queued to
the V4L2 producer (in queue order) and the index most recently passed to
`drmModeSetPlane`. -/

/-- Program state of the loop plus ghost observations. -/
structure LoopState where
  current_buffer : Int
  queued : List Nat
  lastPresented : Option Nat
  deriving DecidableEq, Repr

/-- Observations of one loop iteration: the index presented this step, the
index re-queued to the producer this step (if any), and ghost validity
checks — `dqValid`: the dequeued index was indeed queued to the producer;
`qbValid`: the re-queued index was not already sitting in the producer queue
(`VIDIOC_QBUF` on an already-queued buffer fails with EINVAL). -/
structure StepResult where
  state : LoopState
  presented : Nat
  resubmitted : Option Nat
  dqValid : Bool
  qbValid : Bool
  deriving DecidableEq, Repr

/-- One iteration body of the handoff loop (dmabuf-sharing.c:506-537), with
`d` the index returned by `VIDIOC_DQBUF`.  Follows the C line by line; in
the re-queue branch `buf.index` is overwritten with `stream.current_buffer`
(line 528) before line 536 copies `buf.index` back into
`stream.current_buffer`. -/
def loopStep (st : LoopState) (d : Nat) : StepResult :=
  let dqValid := st.queued.contains d
  let queuedAfterDq := st.queued.erase d
  let bufIndex := d
  let presented := bufIndex
  if st.current_buffer ≠ -1 then
    let bufIndex := st.current_buffer.toNat
    let qbValid := !(queuedAfterDq.contains bufIndex)
    { state := { current_buffer := (bufIndex : Int),
                 queued := queuedAfterDq ++ [bufIndex],
                 lastPresented := some presented },
      presented := presented, resubmitted := some bufIndex,
      dqValid := dqValid, qbValid := qbValid }
  else
    { state := { current_buffer := (bufIndex : Int),
                 queued := queuedAfterDq,
                 lastPresented := some presented },
      presented := presented, resubmitted := none,
      dqValid := dqValid, qbValid := true }

/-- Run the loop body over a sequence of dequeued indices, collecting the
per-step observations. -/
def runTrace (st : LoopState) : List Nat → LoopState × List StepResult
  | [] => (st, [])
  | d :: ds =>
    let r := loopStep st d
    let rest := runTrace r.state ds
    (rest.1, r :: rest.2)

/-- State right after `STREAMON`: all `count` buffers queued to the producer
in index order (QBUF loop, dmabuf-sharing.c:479-490) and
`stream.current_buffer = -1` (line 503). -/
def initLoopState (count : Nat) : LoopState :=
  { current_buffer := -1, queued := List.range count, lastPresented := none }

/-- C1 evaluated at the failing input (N = 2, completed-frame order
0, 1, 0 — the standard ping-pong schedule).  Every dequeue and re-queue in
the run is valid for the producer, yet the third iteration presents
buffer 0 and re-queues buffer 0 in the same iteration: `current_buffer`
was clobbered back to 0 by the `buf.index` re-use, so the newly presented
buffer is re-submitted in the very step it is presented, violating
delay-by-one. -/
theorem C1_third_iteration_resubmits_newly_presented :
    ((runTrace (initLoopState 2) [0, 1, 0]).2.map
        (fun r => (r.presented, r.resubmitted, r.dqValid, r.qbValid)))
      = [(0, none, true, true), (1, some 0, true, true), (0, some 0, true, true)] := by
  decide

/-- C2 evaluated at the failing input (N = 2, completed-frame order
0, 1, 0): after the third iteration the index most recently passed to
`drmModeSetPlane` is 0 while buffer 0 is simultaneously queued to the
producer — the producer may write into memory being scanned out.  All
dequeues/re-queues in the run are valid, and after the second iteration
`current_buffer` (0) already disagrees with the presented buffer (1). -/
theorem C2_presented_buffer_simultaneously_queued :
    (runTrace (initLoopState 2) [0, 1, 0]).1.lastPresented = some 0 ∧
    (runTrace (initLoopState 2) [0, 1, 0]).1.queued.contains 0 = true ∧
    ((runTrace (initLoopState 2) [0, 1, 0]).2.map
        (fun r => (r.dqValid, r.qbValid))) = [(true, true), (true, true), (true, true)] ∧
    ((runTrace (initLoopState 2) [0, 1]).1.current_buffer = 0 ∧
      (runTrace (initLoopState 2) [0, 1]).1.lastPresented = some 1) := by
  decide

/-! ## Wake sources (C6) and failure semantics (C7) -/

/-- Which descriptor(s) made `poll(fds, 2, 5000)` (line 506) return: the
V4L2 fd (`fds[0]`, producer has a completed frame), the DRM fd (`fds[1]`,
consumer/display event), or both. -/
inductive WakeSource where
  | producerReady
  | consumerEvent
  | both
  deriving DecidableEq, Repr

/-- One full iteration of the poll loop as the C executes it: the body
(lines 507-536) never inspects `fds[0].revents` or `fds[1].revents`, so the
dequeue-present-requeue sequence runs whatever woke `poll`; `d` is the index
the (blocking) `VIDIOC_DQBUF` eventually returns.  The wake source parameter
is recorded here only to state that the body is independent of it. -/
def loopIterate (w : WakeSource) (st : LoopState) (d : Nat) : StepResult :=
  match w with
  | _ => loopStep st d

/-- C6 counterexample: an iteration whose `poll` wake-up is caused only by a
consumer/display event still dequeues a buffer from the producer, presents
it, and (here, from the post-ping-pong state) re-queues one: the claim that
such an iteration performs no dequeue, no re-queue and no state change is
false.  The state used is the reachable state after the first frame
(current_buffer = 0, buffer 1 still queued). -/
theorem C6_consumer_only_wakeup_still_dequeues :
    (runTrace (initLoopState 2) [0]).1 = (⟨0, [1], some 0⟩ : LoopState) ∧
    (loopIterate WakeSource.consumerEvent ⟨0, [1], some 0⟩ 1).presented = 1 ∧
    (loopIterate WakeSource.consumerEvent ⟨0, [1], some 0⟩ 1).resubmitted = some 0 ∧
    (loopIterate WakeSource.consumerEvent ⟨0, [1], some 0⟩ 1).state ≠ ⟨0, [1], some 0⟩ := by
  decide

/-- C6 (amended): the loop body is completely independent of which
descriptor woke `poll` — a consumer-event-only wake-up runs exactly the same
dequeue-present-requeue transition as a producer wake-up (the producer
dequeue simply blocks until a completed frame exists); consumer events have
no dedicated handling path and, in particular, drive no release of their
own. -/
theorem C6_loop_body_ignores_wake_source (w : WakeSource) (st : LoopState) (d : Nat) :
    loopIterate w st d = loopIterate WakeSource.producerReady st d := by
  cases w <;> rfl

/-- Oracle outcomes for the fallible calls of one loop iteration:
`VIDIOC_DQBUF` (`none` = ioctl failed, `some d` = dequeued index `d`),
`drmModeSetPlane`, and the re-queue `VIDIOC_QBUF`. -/
structure IterOutcome where
  dqbuf : Option Nat
  setPlaneOk : Bool
  qbufOk : Bool
  deriving Repr

/-- External calls the loop (and any teardown code) could make.  The three
teardown constructors exist so that their absence from every reachable trace
is expressible: the program contains no teardown code at all — after the
`while` loop it simply `return 0` (line 539), and `BYE_ON` calls `abort()`. -/
inductive LoopCall where
  | dqbufAttempt
  | setPlaneCall (idx : Nat)
  | qbufCall (idx : Nat)
  | rmFbCall (idx : Nat)
  | closeFdCall (idx : Nat)
  | destroyDumbCall (idx : Nat)
  deriving DecidableEq, Repr

/-- Teardown calls (framebuffer removal, handle close, allocation destroy). -/
def isTeardownCall : LoopCall → Bool
  | LoopCall.rmFbCall _ => true
  | LoopCall.closeFdCall _ => true
  | LoopCall.destroyDumbCall _ => true
  | _ => false

/-- How the process leaves the loop: `timedOut` = `poll` returned 0 after
5000 ms and `main` returns 0; `aborted` = a `BYE_ON` fired and `abort()`
terminated the process with a non-zero (signal) exit status. -/
inductive ExitKind where
  | timedOut
  | aborted
  deriving DecidableEq, Repr

/-- The calls of one fully successful iteration, in program order. -/
def iterCalls (st : LoopState) (d : Nat) : List LoopCall :=
  [LoopCall.dqbufAttempt, LoopCall.setPlaneCall d] ++
    (if st.current_buffer ≠ -1 then [LoopCall.qbufCall st.current_buffer.toNat] else [])

/-- The poll loop with its three `BYE_ON`s (lines 514, 522, 532): on a
failed `VIDIOC_DQBUF`, `drmModeSetPlane` or `VIDIOC_QBUF` the process aborts
at once — no retry, no further iterations, and no teardown; when the
iteration list is exhausted the `poll` timeout path returns from `main`
(line 539), likewise without teardown. -/
def runLoop (st : LoopState) : List IterOutcome → ExitKind × LoopState × List LoopCall
  | [] => (ExitKind.timedOut, st, [])
  | it :: rest =>
    match it.dqbuf with
    | none => (ExitKind.aborted, st, [LoopCall.dqbufAttempt])
    | some d =>
      if it.setPlaneOk = false then
        (ExitKind.aborted, st, [LoopCall.dqbufAttempt, LoopCall.setPlaneCall d])
      else if (st.current_buffer ≠ -1) ∧ it.qbufOk = false then
        (ExitKind.aborted, st,
          [LoopCall.dqbufAttempt, LoopCall.setPlaneCall d,
           LoopCall.qbufCall st.current_buffer.toNat])
      else
        let r := loopStep st d
        let res := runLoop r.state rest
        (res.1, res.2.1, iterCalls st d ++ res.2.2)

/-- A run in which the 5th producer dequeue fails (the spec's scenario):
four good iterations of the N = 2 ping-pong, then `VIDIOC_DQBUF` errors. -/
def c7Outcomes : List IterOutcome :=
  [⟨some 0, true, true⟩, ⟨some 1, true, true⟩, ⟨some 0, true, true⟩,
   ⟨some 1, true, true⟩, ⟨none, true, true⟩]

/-- C7 counterexample: when the 5th dequeue fails the loop does terminate at
once with a non-zero (abort) exit, but no teardown whatsoever runs — the
trace contains not a single framebuffer removal, fd close or allocation
destroy, refuting "the buffer pool is still torn down cleanly afterward". -/
theorem C7_counterexample_no_teardown_after_fault :
    (runLoop (initLoopState 2) c7Outcomes).1 = ExitKind.aborted ∧
    ((runLoop (initLoopState 2) c7Outcomes).2.2.filter isTeardownCall = []) ∧
    ((runLoop (initLoopState 2) c7Outcomes).2.2.count LoopCall.dqbufAttempt = 5) := by
  decide

/-- On every path, the loop emits no teardown call: the program has no
teardown code (neither after a fault, where `abort()` ends the process, nor
on the timeout path, where `main` just returns). -/
theorem runLoop_no_teardown (st : LoopState) (its : List IterOutcome) :
    (runLoop st its).2.2.filter isTeardownCall = [] := by
  induction its generalizing st with
  | nil => rfl
  | cons it rest ih =>
    cases hdq : it.dqbuf with
    | none => simp [runLoop, hdq, isTeardownCall]
    | some d =>
      by_cases hsp : it.setPlaneOk = false
      · simp [runLoop, hdq, hsp, isTeardownCall]
      · by_cases hqb : (st.current_buffer ≠ -1) ∧ it.qbufOk = false
        · simp only [runLoop, hdq, if_neg hsp, if_pos hqb]
          simp [isTeardownCall]
        · simp only [runLoop, hdq, if_neg hsp, if_neg hqb]
          rw [List.filter_append, ih]
          simp [iterCalls, isTeardownCall]

/-- C7 (amended): a failed producer dequeue or present call terminates the
loop immediately — the failing iteration performs no further calls, no later
iteration runs, and the process exits non-zero via `abort()`; but no clean
pool teardown follows: neither the fault paths nor the timeout path release
any framebuffer registration, shareable handle or allocation. -/
theorem C7_fault_stops_loop_without_teardown
    (st : LoopState) (it : IterOutcome) (rest : List IterOutcome) (d : Nat) :
    (it.dqbuf = none →
      runLoop st (it :: rest)
        = (ExitKind.aborted, st, [LoopCall.dqbufAttempt])) ∧
    (it.dqbuf = some d → it.setPlaneOk = false →
      runLoop st (it :: rest)
        = (ExitKind.aborted, st,
           [LoopCall.dqbufAttempt, LoopCall.setPlaneCall d])) ∧
    (∀ st0 its, (runLoop st0 its).2.2.filter isTeardownCall = []) := by
  refine ⟨?_, ?_, fun st0 its => runLoop_no_teardown st0 its⟩
  · intro hdq
    simp [runLoop, hdq]
  · intro hdq hsp
    simp [runLoop, hdq, hsp]

theorem C7_fault_stops_loop_without_teardown_witness :
    ((⟨none, true, true⟩ : IterOutcome).dqbuf = none →
      runLoop (initLoopState 2) [⟨none, true, true⟩]
        = (ExitKind.aborted, initLoopState 2, [LoopCall.dqbufAttempt])) ∧
    ((⟨none, true, true⟩ : IterOutcome).dqbuf = some 0 →
      (⟨none, true, true⟩ : IterOutcome).setPlaneOk = false →
      runLoop (initLoopState 2) [⟨none, true, true⟩]
        = (ExitKind.aborted, initLoopState 2,
           [LoopCall.dqbufAttempt, LoopCall.setPlaneCall 0])) ∧
    (∀ st0 its, (runLoop st0 its).2.2.filter isTeardownCall = []) :=
  C7_fault_stops_loop_without_teardown (initLoopState 2) ⟨none, true, true⟩ [] 0

/-! ## The `drmModeSetPlane` argument vector (C9) -/

/-- The rectangle arguments of a `drmModeSetPlane` call: destination (CRTC)
rectangle in integer pixels and source rectangle in 16.16 fixed point
(unsigned 32-bit in C, hence the `% 2^32`). -/
structure PlaneArgs where
  crtc_x : Int
  crtc_y : Int
  crtc_w : Int
  crtc_h : Int
  src_x : Nat
  src_y : Nat
  src_w : Nat
  src_h : Nat
  deriving DecidableEq, Repr

/-- The argument vector `main` passes to every `drmModeSetPlane` call
(dmabuf-sharing.c:516-521): destination from `s.compose`, source hard-coded
to `0, 0, s.w << 16, s.h << 16` — the full captured frame. -/
def setPlaneArgs (s : Setup) : PlaneArgs :=
  { crtc_x := s.compose.left, crtc_y := s.compose.top,
    crtc_w := s.compose.width, crtc_h := s.compose.height,
    src_x := 0, src_y := 0,
    src_w := (s.w * 65536) % 2 ^ 32, src_h := (s.h * 65536) % 2 ^ 32 }

/-- `find_crtc`'s compose default (dmabuf-sharing.c:328-335): when no `-t`
option was given, `s.compose` is overwritten with the chosen CRTC's current
rectangle before the loop starts. -/
def applyComposeDefault (s : Setup) (crtcRect : Rect) : Setup :=
  if s.use_compose then s else { s with compose := crtcRect }

/-- A setup in which the caller did specify a crop rectangle (`-s`). -/
def c9Setup : Setup :=
  { crtcIdx := 0, w := 640, h := 480, in_fourcc := 10, out_fourcc := 20,
    buffer_count := 2, use_crop := true, crop := ⟨10, 10, 100, 100⟩,
    use_compose := true, compose := ⟨0, 0, 1920, 1080⟩ }

/-- C9 counterexample: with a caller-specified crop rectangle
(10,10)+100x100, the present call still passes the full captured frame
(0, 0, 640<<16, 480<<16) as the source rectangle — the crop is not applied
(and indeed no code in the program reads `s.crop` after parsing). -/
theorem C9_counterexample_crop_ignored :
    c9Setup.use_crop = true ∧
    c9Setup.crop = ⟨10, 10, 100, 100⟩ ∧
    setPlaneArgs c9Setup
      = { crtc_x := 0, crtc_y := 0, crtc_w := 1920, crtc_h := 1080,
          src_x := 0, src_y := 0,
          src_w := 640 * 65536, src_h := 480 * 65536 } := by
  decide

/-- C9 (amended): every present call passes the session's compose
(destination) rectangle — the caller's own when `-t` was given, else the
chosen CRTC's full rectangle — while the source rectangle is always the full
captured frame `(0, 0, w<<16, h<<16)`; the parsed crop rectangle never
influences the call: the arguments are invariant under any change of
`crop`/`use_crop`. -/
theorem C9_present_uses_compose_and_full_frame (s : Setup) (crtcRect : Rect)
    (r : Rect) (b : Bool) :
    (setPlaneArgs (applyComposeDefault s crtcRect)).crtc_x
        = (if s.use_compose then s.compose.left else crtcRect.left) ∧
    (setPlaneArgs (applyComposeDefault s crtcRect)).crtc_y
        = (if s.use_compose then s.compose.top else crtcRect.top) ∧
    (setPlaneArgs (applyComposeDefault s crtcRect)).crtc_w
        = (if s.use_compose then s.compose.width else crtcRect.width) ∧
    (setPlaneArgs (applyComposeDefault s crtcRect)).crtc_h
        = (if s.use_compose then s.compose.height else crtcRect.height) ∧
    (setPlaneArgs (applyComposeDefault s crtcRect)).src_x = 0 ∧
    (setPlaneArgs (applyComposeDefault s crtcRect)).src_y = 0 ∧
    (setPlaneArgs (applyComposeDefault s crtcRect)).src_w = (s.w * 65536) % 2 ^ 32 ∧
    (setPlaneArgs (applyComposeDefault s crtcRect)).src_h = (s.h * 65536) % 2 ^ 32 ∧
    setPlaneArgs { s with crop := r, use_crop := b } = setPlaneArgs s := by
  by_cases hc : s.use_compose <;>
    simp [setPlaneArgs, applyComposeDefault, hc]

/-! ## The setup phase of `main` (dmabuf-sharing.c:394-494)

The phase is modelled as a staged pipeline emitting one event per external
interaction, in exactly the source order: `VIDIOC_QUERYCAP` (413-418),
`VIDIOC_G_FMT` (424), `VIDIOC_S_FMT` (437), `VIDIOC_G_FMT` (440),
`VIDIOC_REQBUFS` (452-455), the buffer-creation loop (466-469), `find_crtc`
(473-474), `find_plane` (476-477), the initial `VIDIOC_QBUF` loop (479-490)
and `VIDIOC_STREAMON` (492-494).  Every `BYE_ON` aborts the pipeline at its
stage. -/

/-- The fields of `struct v4l2_format`'s `fmt.pix` that `main` reads. -/
structure Fmt where
  width : Nat
  height : Nat
  pixelformat : Nat
  sizeimage : Nat
  bytesperline : Nat
  deriving DecidableEq, Repr

/-- Oracle outcomes for the setup phase's external calls. -/
structure MainEnv where
  querycapOk : Bool
  gfmtOk : Bool
  sfmtOk : Bool
  gfmt2 : Option Fmt
  reqbufsGranted : Option Nat
  bufEnvs : Nat → BufEnv
  findCrtcOk : Bool
  crtcIdx : Nat
  crtcRect : Rect
  planes : List Plane
  qbufOk : Nat → Bool
  streamonOk : Bool

/-- One observable interaction of the setup phase. -/
inductive SetupEvent where
  | querycap
  | getFormat
  | setFormat
  | requestBuffers (count : Nat)
  | allocBuffer (i : Nat)
  | findCrtcCall
  | findPlaneCall
  | initialQbuf (i : Nat)
  | streamOn
  deriving DecidableEq, Repr

/-- The stage at which a `BYE_ON` (or `WARN_ON`-driven failure return)
terminated the setup phase. -/
inductive AbortStage where
  | querycap
  | gfmt
  | sfmt
  | gfmt2
  | reqbufs
  | shortBuffers
  | alloc (i : Nat)
  | crtc
  | plane
  | qbuf (i : Nat)
  | streamon
  deriving DecidableEq, Repr

/-- The buffer-creation loop of `main` (466-469) as seen by the setup
pipeline: one `allocBuffer` event per attempt; `some i` reports the index of
the first failing buffer (at which `BYE_ON` aborts). -/
def allocBuffers (envs : Nat → BufEnv) (s : Setup) (size pitch : Nat) :
    Nat → Nat → Option Nat × List SetupEvent
  | _, 0 => (none, [])
  | i, n+1 =>
    if ((buffer_create (envs i) s size pitch).1).isSome then
      let rest := allocBuffers envs s size pitch (i+1) n
      (rest.1, SetupEvent.allocBuffer i :: rest.2)
    else
      (some i, [SetupEvent.allocBuffer i])

/-- The initial QBUF loop of `main` (479-490): one `initialQbuf` event per
attempt, aborting at the first failing index. -/
def qbufLoop (ok : Nat → Bool) : Nat → Nat → Option Nat × List SetupEvent
  | _, 0 => (none, [])
  | i, n+1 =>
    if ok i then
      let rest := qbufLoop ok (i+1) n
      (rest.1, SetupEvent.initialQbuf i :: rest.2)
    else
      (some i, [SetupEvent.initialQbuf i])

/-- The setup phase of `main`.  Stage order and failure behaviour follow the
source exactly; in particular the whole buffer pool is created (466-469)
BEFORE `find_crtc`/`find_plane` run (473-477).  After the final `G_FMT`,
`s.in_fourcc`, `s.w`, `s.h` are overwritten with the driver's authoritative
format (457-459); `find_crtc` sets `crtcIdx` and defaults `compose` to the
CRTC rectangle (328-335). -/
def mainSetup (s : Setup) (env : MainEnv) : Option AbortStage × List SetupEvent :=
  if env.querycapOk = false then
    (some AbortStage.querycap, [SetupEvent.querycap])
  else if env.gfmtOk = false then
    (some AbortStage.gfmt, [SetupEvent.querycap, SetupEvent.getFormat])
  else if env.sfmtOk = false then
    (some AbortStage.sfmt,
     [SetupEvent.querycap, SetupEvent.getFormat, SetupEvent.setFormat])
  else
    match env.gfmt2 with
    | none =>
        (some AbortStage.gfmt2,
         [SetupEvent.querycap, SetupEvent.getFormat, SetupEvent.setFormat,
          SetupEvent.getFormat])
    | some fmt =>
      let pre := [SetupEvent.querycap, SetupEvent.getFormat, SetupEvent.setFormat,
                  SetupEvent.getFormat, SetupEvent.requestBuffers s.buffer_count]
      match env.reqbufsGranted with
      | none => (some AbortStage.reqbufs, pre)
      | some granted =>
        if granted < s.buffer_count then
          (some AbortStage.shortBuffers, pre)
        else
          let s1 := { s with in_fourcc := fmt.pixelformat,
                             w := fmt.width, h := fmt.height }
          let ar := allocBuffers env.bufEnvs s1 fmt.sizeimage fmt.bytesperline
                      0 s.buffer_count
          match ar.1 with
          | some i => (some (AbortStage.alloc i), pre ++ ar.2)
          | none =>
            if env.findCrtcOk = false then
              (some AbortStage.crtc, pre ++ ar.2 ++ [SetupEvent.findCrtcCall])
            else
              let s2 := applyComposeDefault { s1 with crtcIdx := env.crtcIdx }
                          env.crtcRect
              match find_plane s2.crtcIdx s2.out_fourcc env.planes with
              | none =>
                  (some AbortStage.plane,
                   pre ++ ar.2 ++ [SetupEvent.findCrtcCall, SetupEvent.findPlaneCall])
              | some _ =>
                let qr := qbufLoop env.qbufOk 0 s.buffer_count
                let pre2 := pre ++ ar.2
                  ++ [SetupEvent.findCrtcCall, SetupEvent.findPlaneCall]
                match qr.1 with
                | some i => (some (AbortStage.qbuf i), pre2 ++ qr.2)
                | none =>
                  if env.streamonOk = false then
                    (some AbortStage.streamon, pre2 ++ qr.2 ++ [SetupEvent.streamOn])
                  else
                    (none, pre2 ++ qr.2 ++ [SetupEvent.streamOn])

theorem allocBuffers_none_mem (envs : Nat → BufEnv) (s : Setup) (size pitch : Nat) :
    ∀ (n i j : Nat), (allocBuffers envs s size pitch i n).1 = none → j < n →
      SetupEvent.allocBuffer (i + j) ∈ (allocBuffers envs s size pitch i n).2 := by
  intro n
  induction n with
  | zero => intro i j _ hj; omega
  | succ m ih =>
    intro i j hnone hj
    by_cases hok : ((buffer_create (envs i) s size pitch).1).isSome
    · simp only [allocBuffers, if_pos hok] at hnone ⊢
      cases j with
      | zero => simp
      | succ j' =>
        have : i + (j' + 1) = (i + 1) + j' := by omega
        rw [this]
        exact List.mem_cons_of_mem _ (ih (i + 1) j' hnone (Nat.lt_of_succ_lt_succ hj))
    · simp [allocBuffers, if_neg hok] at hnone

/-- All-good environment except that the single available plane supports
only format 99, incompatible with the session's presentation layout (20). -/
def c4Env : MainEnv :=
  { querycapOk := true, gfmtOk := true, sfmtOk := true,
    gfmt2 := some ⟨640, 480, 10, 1000, 2560⟩,
    reqbufsGranted := some 2,
    bufEnvs := fun i => ⟨some (i + 1), some (i + 10), some (i + 20)⟩,
    findCrtcOk := true, crtcIdx := 0, crtcRect := ⟨0, 0, 1920, 1080⟩,
    planes := [⟨7, 1, [99]⟩],
    qbufOk := fun _ => true, streamonOk := true }

/-- C4 counterexample: with no presentation surface supporting the session's
layout, the session does fail at the plane-resolution stage — but only after
both buffers of the pool have been allocated: the trace shows the two
`allocBuffer` events strictly before `findPlaneCall`, refuting "fails ...
before any device-memory allocation has been made". -/
theorem C4_counterexample_allocation_precedes_resolution :
    mainSetup c3Setup c4Env
      = (some AbortStage.plane,
         [SetupEvent.querycap, SetupEvent.getFormat, SetupEvent.setFormat,
          SetupEvent.getFormat, SetupEvent.requestBuffers 2,
          SetupEvent.allocBuffer 0, SetupEvent.allocBuffer 1,
          SetupEvent.findCrtcCall, SetupEvent.findPlaneCall]) := by
  decide

/-- C4 (amended): producer format negotiation (QUERYCAP, G_FMT, S_FMT,
G_FMT) and the buffer-count request complete before any allocation, but
output/plane resolution runs only AFTER the whole pool is built: whenever
the setup phase aborts because no plane supports the session's layout,
every buffer of the pool has already been allocated. -/
theorem C4_plane_failure_only_after_full_allocation (s : Setup) (env : MainEnv)
    (h : (mainSetup s env).1 = some AbortStage.plane) :
    ∀ i, i < s.buffer_count → SetupEvent.allocBuffer i ∈ (mainSetup s env).2 := by
  intro i hi
  unfold mainSetup at h ⊢
  by_cases hq : env.querycapOk = false
  · simp [if_pos hq] at h
  rw [if_neg hq] at h ⊢
  by_cases hg : env.gfmtOk = false
  · simp [if_pos hg] at h
  rw [if_neg hg] at h ⊢
  by_cases hs : env.sfmtOk = false
  · simp [if_pos hs] at h
  rw [if_neg hs] at h ⊢
  cases hf2 : env.gfmt2 with
  | none => rw [hf2] at h; simp at h
  | some fmt =>
    rw [hf2] at h
    try dsimp only at h ⊢
    cases hrq : env.reqbufsGranted with
    | none => rw [hrq] at h; simp at h
    | some granted =>
      rw [hrq] at h
      try dsimp only at h ⊢
      by_cases hgr : granted < s.buffer_count
      · rw [if_pos hgr] at h; simp at h
      rw [if_neg hgr] at h ⊢
      try dsimp only at h ⊢
      cases har : (allocBuffers env.bufEnvs
          { s with in_fourcc := fmt.pixelformat, w := fmt.width, h := fmt.height }
          fmt.sizeimage fmt.bytesperline 0 s.buffer_count).1 with
      | some k => rw [har] at h; simp at h
      | none =>
        rw [har] at h
        try dsimp only at h ⊢
        by_cases hcr : env.findCrtcOk = false
        · rw [if_pos hcr] at h; simp at h
        rw [if_neg hcr] at h ⊢
        cases hfp : find_plane
            (applyComposeDefault
              { s with in_fourcc := fmt.pixelformat, w := fmt.width,
                       h := fmt.height, crtcIdx := env.crtcIdx }
              env.crtcRect).crtcIdx
            (applyComposeDefault
              { s with in_fourcc := fmt.pixelformat, w := fmt.width,
                       h := fmt.height, crtcIdx := env.crtcIdx }
              env.crtcRect).out_fourcc env.planes with
        | none =>
          rw [hfp] at h
          try dsimp only at h ⊢
          have hmem := allocBuffers_none_mem env.bufEnvs
            { s with in_fourcc := fmt.pixelformat, w := fmt.width, h := fmt.height }
            fmt.sizeimage fmt.bytesperline s.buffer_count 0 i har (by omega)
          simp only [Nat.zero_add] at hmem
          simp [List.mem_append]
          exact hmem
        | some pid =>
          rw [hfp] at h
          cases hqb : (qbufLoop env.qbufOk 0 s.buffer_count).1 with
          | some k => rw [hqb] at h; simp at h
          | none =>
            rw [hqb] at h
            by_cases hst : env.streamonOk = false
            · rw [if_pos hst] at h; simp at h
            · rw [if_neg hst] at h; simp at h

theorem C4_plane_failure_only_after_full_allocation_witness :
    (mainSetup c3Setup c4Env).1 = some AbortStage.plane ∧
    (∀ i, i < c3Setup.buffer_count →
      SetupEvent.allocBuffer i ∈ (mainSetup c3Setup c4Env).2) :=
  ⟨by decide, C4_plane_failure_only_after_full_allocation c3Setup c4Env (by decide)⟩

/-- A session requesting a single buffer (`-b 1`). -/
def c5Setup : Setup :=
  { crtcIdx := 0, w := 640, h := 480, in_fourcc := 10, out_fourcc := 20,
    buffer_count := 1, use_crop := false, crop := ⟨0, 0, 0, 0⟩,
    use_compose := false, compose := ⟨0, 0, 0, 0⟩ }

/-- All-good environment granting exactly the single requested buffer and
offering a compatible plane (format 20). -/
def c5Env : MainEnv :=
  { querycapOk := true, gfmtOk := true, sfmtOk := true,
    gfmt2 := some ⟨640, 480, 10, 1000, 2560⟩,
    reqbufsGranted := some 1,
    bufEnvs := fun i => ⟨some (i + 1), some (i + 10), some (i + 20)⟩,
    findCrtcOk := true, crtcIdx := 0, crtcRect := ⟨0, 0, 1920, 1080⟩,
    planes := [⟨7, 1, [20]⟩],
    qbufOk := fun _ => true, streamonOk := true }

/-- C5 counterexample: a requested buffer count of N = 1 is not rejected
anywhere — with the producer granting 1 buffer the setup phase runs to
completion and `STREAMON` starts the streaming session, refuting "N = 1 is
rejected before the streaming session starts". -/
theorem C5_counterexample_single_buffer_accepted :
    (mainSetup c5Setup c5Env).1 = none ∧
    SetupEvent.streamOn ∈ (mainSetup c5Setup c5Env).2 ∧
    c5Setup.buffer_count = 1 := by
  decide

/-- C5 (amended): no minimum buffer count is enforced anywhere in the
program; the only buffer-count-related rejection is `BYE_ON(rqbufs.count <
s.buffer_count)` — the setup aborts at the buffer-count stage exactly when
the producer grants fewer buffers than requested, never because the request
itself is below 2. -/
theorem C5_only_count_check_is_granted_shortfall (s : Setup) (env : MainEnv)
    (h : (mainSetup s env).1 = some AbortStage.shortBuffers) :
    ∃ granted, env.reqbufsGranted = some granted ∧ granted < s.buffer_count := by
  unfold mainSetup at h
  by_cases hq : env.querycapOk = false
  · simp [if_pos hq] at h
  rw [if_neg hq] at h
  by_cases hg : env.gfmtOk = false
  · simp [if_pos hg] at h
  rw [if_neg hg] at h
  by_cases hs : env.sfmtOk = false
  · simp [if_pos hs] at h
  rw [if_neg hs] at h
  cases hf2 : env.gfmt2 with
  | none => rw [hf2] at h; simp at h
  | some fmt =>
    rw [hf2] at h
    dsimp only at h
    cases hrq : env.reqbufsGranted with
    | none => rw [hrq] at h; simp at h
    | some granted =>
      rw [hrq] at h
      dsimp only at h
      by_cases hgr : granted < s.buffer_count
      · exact ⟨granted, rfl, hgr⟩
      rw [if_neg hgr] at h
      try dsimp only at h
      cases har : (allocBuffers env.bufEnvs
          { s with in_fourcc := fmt.pixelformat, w := fmt.width, h := fmt.height }
          fmt.sizeimage fmt.bytesperline 0 s.buffer_count).1 with
      | some k => rw [har] at h; simp at h
      | none =>
        rw [har] at h
        try dsimp only at h
        by_cases hcr : env.findCrtcOk = false
        · rw [if_pos hcr] at h; simp at h
        rw [if_neg hcr] at h
        cases hfp : find_plane
            (applyComposeDefault
              { s with in_fourcc := fmt.pixelformat, w := fmt.width,
                       h := fmt.height, crtcIdx := env.crtcIdx }
              env.crtcRect).crtcIdx
            (applyComposeDefault
              { s with in_fourcc := fmt.pixelformat, w := fmt.width,
                       h := fmt.height, crtcIdx := env.crtcIdx }
              env.crtcRect).out_fourcc env.planes with
        | none => rw [hfp] at h; simp at h
        | some pid =>
          rw [hfp] at h
          cases hqb : (qbufLoop env.qbufOk 0 s.buffer_count).1 with
          | some k => rw [hqb] at h; simp at h
          | none =>
            rw [hqb] at h
            by_cases hst : env.streamonOk = false
            · rw [if_pos hst] at h; simp at h
            · rw [if_neg hst] at h; simp at h

/-- Environment identical to `c5Env` except that the producer grants no
buffer at all, so the setup aborts at the buffer-count check. -/
def c5ShortEnv : MainEnv :=
  { querycapOk := true, gfmtOk := true, sfmtOk := true,
    gfmt2 := some ⟨640, 480, 10, 1000, 2560⟩,
    reqbufsGranted := some 0,
    bufEnvs := fun i => ⟨some (i + 1), some (i + 10), some (i + 20)⟩,
    findCrtcOk := true, crtcIdx := 0, crtcRect := ⟨0, 0, 1920, 1080⟩,
    planes := [⟨7, 1, [20]⟩],
    qbufOk := fun _ => true, streamonOk := true }

theorem C5_only_count_check_is_granted_shortfall_witness :
    (mainSetup c5Setup c5ShortEnv).1 = some AbortStage.shortBuffers ∧
    (∃ granted, c5ShortEnv.reqbufsGranted = some granted ∧
      granted < c5Setup.buffer_count) :=
  ⟨by decide, C5_only_count_check_is_granted_shortfall c5Setup c5ShortEnv (by decide)⟩

/-- C10: when the caller omits the presentation-side layout
(`s.out_fourcc = 0`), framebuffer registration falls back to the producer
layout — `buffer_create` passes `fbFourcc s = s.in_fourcc` to
`drmModeAddFB2` (dmabuf-sharing.c:226-236) — while `find_plane` still
compares each plane's formats against the raw value 0 (line 373); so for
every plane list containing no format tag equal to 0, plane resolution
fails even though every successful buffer registration used the input
layout: the two stages use different layouts. -/
theorem C10_zero_out_fourcc_layout_mismatch (s : Setup) (ps : List Plane)
    (h0 : s.out_fourcc = 0) (hnz : ∀ p ∈ ps, ¬ (0 ∈ p.formats)) :
    fbFourcc s = s.in_fourcc ∧
    find_plane s.crtcIdx s.out_fourcc ps = none ∧
    (∀ hdl fd fb size pitch,
      (buffer_create (BufEnv.mk (some hdl) (some fd) (some fb)) s size pitch).2
        = [DrmCall.createDumb s.w s.h 32 size, DrmCall.primeHandleToFd hdl,
           DrmCall.addFB2 s.w s.h s.in_fourcc hdl pitch]) := by
  refine ⟨by simp [fbFourcc, h0], ?_, ?_⟩
  · rw [find_plane_none_iff]
    intro p hp
    have hfl : formatListHas s.out_fourcc p.formats = false := by
      rw [h0]
      cases hc : formatListHas 0 p.formats
      · rfl
      · exact absurd ((formatListHas_iff_mem 0 p.formats).mp hc) (hnz p hp)
    simp [planeCompatible, hfl]
  · intro hdl fd fb size pitch
    simp [buffer_create, fbFourcc, h0]

/-- A session with no `-F` option: `out_fourcc` stays 0. -/
def c10Setup : Setup :=
  { crtcIdx := 0, w := 640, h := 480, in_fourcc := 10, out_fourcc := 0,
    buffer_count := 2, use_crop := false, crop := ⟨0, 0, 0, 0⟩,
    use_compose := false, compose := ⟨0, 0, 0, 0⟩ }

theorem C10_zero_out_fourcc_layout_mismatch_witness :
    (c10Setup.out_fourcc = 0 ∧
      (∀ p ∈ ([⟨7, 1, [99]⟩] : List Plane), ¬ (0 ∈ p.formats))) ∧
    (fbFourcc c10Setup = c10Setup.in_fourcc ∧
      find_plane c10Setup.crtcIdx c10Setup.out_fourcc [⟨7, 1, [99]⟩] = none ∧
      (∀ hdl fd fb size pitch,
        (buffer_create (BufEnv.mk (some hdl) (some fd) (some fb))
            c10Setup size pitch).2
          = [DrmCall.createDumb c10Setup.w c10Setup.h 32 size,
             DrmCall.primeHandleToFd hdl,
             DrmCall.addFB2 c10Setup.w c10Setup.h c10Setup.in_fourcc hdl pitch])) :=
  ⟨⟨by decide, by decide⟩,
   C10_zero_out_fourcc_layout_mismatch c10Setup [⟨7, 1, [99]⟩] (by decide) (by decide)⟩

end DmabufSharing
